import Mathlib

/-!
Shallow embedding of the Supplier Negotiation Engine and the AP2 payment
mandate service of the repository
(`realtime_price_agent/services/negotiation_service.py` and
`realtime_price_agent/services/ap2_service.py`).

Modelling conventions:
* Prices, amounts and timestamps are exact rationals (`ℚ`); Python's
  `round(x, 2)` is modelled as round-half-to-even on `x * 100`, and the
  float literals `0.95`, `0.97`, `1.05`, `1.15` as the exact rationals they
  denote in the source text.
* The database session is an explicit `DB` value; SQLAlchemy queries by
  primary key become `List.find?`, `db.add` appends, and in-place ORM
  mutation becomes a keyed map over the table.  Operations return the
  (possibly mutated) store in all cases, since the services commit before
  any later `raise` can fire.
* Each operation takes a single clock reading `now`; the source calls
  `datetime.utcnow()` several times inside one operation, microseconds
  apart, and its JWT claims truncate timestamps to whole seconds — both
  sub-second artefacts are idealised away.
* `random.uniform(1.05, 1.15)` is an injected parameter `markup`, and
  `uuid` identifiers come from a fresh counter in `DB`.
* RS256 signing is symbolic: a key pair is a `Nat`, a signature is the
  pair (key, signed payload), and verification checks the stored pair
  against the presented payload and public key (so altering one byte of
  the payload invalidates the signature).
* Python raises `ValueError` everywhere; the error constructors below name
  the taxonomy of the specification (§7), one per raise site, plus the
  unhandled `IndexError`/`ZeroDivisionError` exits.
-/

namespace SupplyMind

abbrev Time := ℚ

/-- Round-half-to-even on an exact rational, as Python's builtin `round`
behaves on representable values. -/
def roundHalfEven (q : ℚ) : ℤ :=
  let f : ℤ := ⌊q⌋
  let r : ℚ := q - (f : ℚ)
  if r < 1/2 then f
  else if 1/2 < r then f + 1
  else if f % 2 = 0 then f else f + 1

/-- Python `round(q, 2)`. -/
def round2 (q : ℚ) : ℚ := (roundHalfEven (q * 100) : ℚ) / 100

/-- Python truthiness of an optional number: `None` and `0` are falsy. -/
def truthy : Option ℚ → Bool
  | none => false
  | some x => x ≠ 0

/-- One line item of a negotiation session (`{sku, quantity}` dict). -/
structure Item where
  sku : String
  quantity : ℚ
deriving DecidableEq

/-- Row of the `products` table; only the column the services read. -/
structure Product where
  unit_cost : Option ℚ
deriving DecidableEq

/-- Row of the `suppliers` table; only the columns the services read. -/
structure Supplier where
  supplier_id : String
  supplier_name : String
deriving DecidableEq

/-- Row of the `negotiation_sessions` table. -/
structure NegotiationSession where
  session_id : String
  status : String
  items : List Item
  target_price : Option ℚ
  max_rounds : Nat
  current_round : Nat
  winning_supplier_id : Option String
  final_price : Option ℚ
  total_value : Option ℚ
  created_at : Time
  completed_at : Option Time
deriving DecidableEq

/-- Row of the `negotiation_rounds` table. -/
structure NegotiationRound where
  round_id : String
  session_id : String
  supplier_id : String
  round_number : Nat
  offer_type : String
  offered_price : ℚ
  total_value : ℚ
  counter_price : Option ℚ
  justification : Option String
  status : String
  response_received_at : Option Time
deriving DecidableEq

/-- Claim set of an AP2 mandate token (the JWT payload built in
`create_mandate`). -/
structure MandatePayload where
  iss : String
  sub : String
  aud : String
  iat : Time
  exp : Time
  jti : String
  mandate_type : String
  amount : ℚ
  currency : String
  order_details : String
  session_id : Option String
  po_number : Option String
  user_consent : Bool
  consent_timestamp : Time
deriving DecidableEq

/-- Symbolically signed JWS: the presented payload together with the
signature, which records the signing key and the payload that was
actually signed. -/
structure SignedToken where
  payload : MandatePayload
  sig : Nat × MandatePayload
deriving DecidableEq

/-- `jwt.encode(payload, private_key, algorithm="RS256")`. -/
def signToken (key : Nat) (p : MandatePayload) : SignedToken := ⟨p, (key, p)⟩

/-- The exceptions `jwt.decode` can raise that `verify_mandate` handles. -/
inductive JwtError where
  | expiredSignature
  | invalidSignature
  | invalidAudience
deriving DecidableEq

/-- `jwt.decode(token, public_key, algorithms=["RS256"], audience=aud)`:
verifies the signature, then the `exp` claim, then the audience. -/
def jwtDecode (tok : SignedToken) (pubKey : Nat) (aud : String) (now : Time) :
    Except JwtError MandatePayload :=
  if tok.sig ≠ (pubKey, tok.payload) then .error .invalidSignature
  else if now > tok.payload.exp then .error .expiredSignature
  else if tok.payload.aud ≠ aud then .error .invalidAudience
  else .ok tok.payload

/-- Row of the `payment_mandates` table. -/
structure PaymentMandate where
  mandate_id : String
  session_id : Option String
  po_number : Option String
  supplier_id : String
  amount : ℚ
  currency : String
  mandate_type : String
  signed_mandate : SignedToken
  merchant_authorization : Option String
  signature_algorithm : String
  public_key_id : String
  status : String
  created_at : Time
  expires_at : Time
  executed_at : Option Time
  error_message : Option String
deriving DecidableEq

/-- The persistent store the two services touch, plus the uuid counter. -/
structure DB where
  suppliers : List Supplier
  products : List (String × Product)
  sessions : List NegotiationSession
  rounds : List NegotiationRound
  mandates : List PaymentMandate
  fresh : Nat
deriving DecidableEq

/-- Domain errors, one constructor per `raise` site, named after the
specification's taxonomy (§7), plus the two unhandled Python exceptions
the services can let escape. -/
inductive Err where
  | notFound
  | invalidState
  | invalidArgument
  | permissionDenied
  | indexError
  | zeroDivisionError
  | verificationFailed
deriving DecidableEq

def mkSessionId (n : Nat) : String := "neg-" ++ toString n
def mkRoundId (n : Nat) : String := "rnd-" ++ toString n
def mkMandateId (n : Nat) : String := "ap2-" ++ toString n

def findSession? (db : DB) (sid : String) : Option NegotiationSession :=
  db.sessions.find? (fun s => s.session_id == sid)

def findProduct? (db : DB) (sku : String) : Option Product :=
  (db.products.find? (fun p => p.1 == sku)).map (·.2)

def supplierExists (db : DB) (supid : String) : Bool :=
  db.suppliers.any (fun s => s.supplier_id == supid)

def findMandate? (db : DB) (mid : String) : Option PaymentMandate :=
  db.mandates.find? (fun m => m.mandate_id == mid)

/-- `query(NegotiationRound).filter_by(session_id, supplier_id)
.order_by(round_number.desc()).first()`: the stored round of the pair with
the greatest round number (first-inserted wins on the backend-unspecified
tie order). -/
def latestRound? (db : DB) (sid supid : String) : Option NegotiationRound :=
  (db.rounds.filter (fun r => r.session_id == sid && r.supplier_id == supid)).foldl
    (fun acc r =>
      match acc with
      | none => some r
      | some b => if r.round_number > b.round_number then some r else some b)
    none

/-- In-place ORM mutation of one session row, keyed by id. -/
def updateSession (db : DB) (sid : String)
    (g : NegotiationSession → NegotiationSession) : DB :=
  { db with sessions := db.sessions.map (fun s => if s.session_id == sid then g s else s) }

/-- In-place ORM mutation of one round row, keyed by id. -/
def updateRound (db : DB) (rid : String)
    (g : NegotiationRound → NegotiationRound) : DB :=
  { db with rounds := db.rounds.map (fun r => if r.round_id == rid then g r else r) }

/-- In-place ORM mutation of one mandate row, keyed by id. -/
def updateMandate (db : DB) (mid : String)
    (g : PaymentMandate → PaymentMandate) : DB :=
  { db with mandates := db.mandates.map (fun m => if m.mandate_id == mid then g m else m) }

/-- Return value of `create_session` (the dict's non-echo fields). -/
structure CreateSessionResult where
  session_id : String
  status : String
  items : List Item
  target_price : Option ℚ
  max_rounds : Nat
  created_at : Time
deriving DecidableEq

/-- Shared tail of `create_session`: build and persist the session row. -/
def create_session_persist (db : DB) (now : Time) (items : List Item)
    (target_price : Option ℚ) (max_rounds : Nat) :
    Except Err CreateSessionResult × DB :=
  let sid := mkSessionId db.fresh
  let s : NegotiationSession :=
    { session_id := sid, status := "open", items := items,
      target_price := target_price, max_rounds := max_rounds,
      current_round := 0, winning_supplier_id := none, final_price := none,
      total_value := none, created_at := now, completed_at := none }
  (.ok { session_id := sid, status := "open", items := items,
         target_price := target_price, max_rounds := max_rounds,
         created_at := now },
   { db with sessions := db.sessions ++ [s], fresh := db.fresh + 1 })

/-- `NegotiationService.create_session`.  No validation of `items` is
performed; with a truthy `target_discount_percent` and a falsy
`target_price` the target is derived from the first item's product cost
(`items[0]` raising `IndexError` on an empty list), kept unchanged when
the product or its cost is missing or zero. -/
def create_session (db : DB) (now : Time) (items : List Item)
    (target_price target_discount_percent : Option ℚ) (max_rounds : Nat) :
    Except Err CreateSessionResult × DB :=
  if truthy target_discount_percent && !truthy target_price then
    match items.head? with
    | none => (.error .indexError, db)
    | some it =>
      let tp : Option ℚ :=
        match findProduct? db it.sku with
        | none => target_price
        | some p =>
          match p.unit_cost with
          | none => target_price
          | some c =>
            if c = 0 then target_price
            else some (c * (1 - (target_discount_percent.getD 0) / 100))
      create_session_persist db now items tp max_rounds
  else
    create_session_persist db now items target_price max_rounds

/-- Return value of `request_quote` (supplier-name echo elided). -/
structure QuoteResult where
  round_id : String
  session_id : String
  supplier_id : String
  offered_price : ℚ
  total_value : ℚ
  status : String
deriving DecidableEq

/-- `NegotiationService.request_quote`; `markup` is the injected draw of
`random.uniform(1.05, 1.15)`. -/
def request_quote (db : DB) (now : Time) (session_id supplier_id : String)
    (markup : ℚ) : Except Err QuoteResult × DB :=
  match findSession? db session_id with
  | none => (.error .notFound, db)
  | some session =>
    if !supplierExists db supplier_id then (.error .notFound, db)
    else
      match session.items.head? with
      | none => (.error .indexError, db)
      | some it =>
        let base_price : ℚ :=
          match findProduct? db it.sku with
          | none => 5
          | some p =>
            match p.unit_cost with
            | none => 5
            | some c => if c = 0 then 5 else c
        let offered_price := round2 (base_price * markup)
        let total_value := round2 (offered_price * it.quantity)
        let round_number := session.current_round + 1
        let r : NegotiationRound :=
          { round_id := mkRoundId db.fresh, session_id := session_id,
            supplier_id := supplier_id, round_number := round_number,
            offer_type := "initial", offered_price := offered_price,
            total_value := total_value, counter_price := none,
            justification := none, status := "received",
            response_received_at := some now }
        let db' := updateSession
          { db with rounds := db.rounds ++ [r], fresh := db.fresh + 1 }
          session_id (fun s => { s with current_round := round_number })
        (.ok { round_id := r.round_id, session_id := session_id,
               supplier_id := supplier_id, offered_price := offered_price,
               total_value := total_value, status := "received" }, db')

/-- The simulated supplier decision logic inside `submit_counter`: new
offered price and the response status, from the prior offered price and
our counter. -/
def supplierResponse (their counter : ℚ) : ℚ × String :=
  let discount_requested := (their - counter) / their * 100
  if discount_requested ≤ 5 then (counter, "accepted")
  else if discount_requested ≤ 10 then (round2 ((their + counter) / 2), "countered")
  else if discount_requested ≤ 15 then (round2 (their * (95/100)), "countered")
  else (round2 (their * (97/100)), "countered")

/-- Return value of `submit_counter`. -/
structure CounterResult where
  round_id : String
  session_id : String
  supplier_id : String
  our_counter_price : ℚ
  their_response_price : ℚ
  total_value : ℚ
  round_number : Nat
  status : String
  discount_requested_percent : ℚ
deriving DecidableEq

/-- `NegotiationService.submit_counter`.  Marks the pair's latest round
countered, simulates the supplier's response, appends the response round
and moves the session's global counter to that round's number. -/
def submit_counter (db : DB) (now : Time) (session_id supplier_id : String)
    (counter_price : ℚ) (justification : String) :
    Except Err CounterResult × DB :=
  match findSession? db session_id with
  | none => (.error .notFound, db)
  | some session =>
    match latestRound? db session_id supplier_id with
    | none => (.error .invalidState, db)
    | some latest =>
      if latest.offered_price = 0 then (.error .zeroDivisionError, db)
      else
        let their := latest.offered_price
        let discount_requested := (their - counter_price) / their * 100
        let resp := supplierResponse their counter_price
        match session.items.head? with
        | none => (.error .indexError, db)
        | some it =>
          let new_total_value := round2 (resp.1 * it.quantity)
          let new_round_number := latest.round_number + 1
          let newr : NegotiationRound :=
            { round_id := mkRoundId db.fresh, session_id := session_id,
              supplier_id := supplier_id, round_number := new_round_number,
              offer_type := "counter", offered_price := resp.1,
              total_value := new_total_value, counter_price := none,
              justification := none, status := "received",
              response_received_at := some now }
          let db₁ := updateRound db latest.round_id
            (fun r => { r with counter_price := some counter_price,
                               justification := some justification,
                               status := "countered" })
          let db₂ := { db₁ with rounds := db₁.rounds ++ [newr], fresh := db.fresh + 1 }
          let db' := updateSession db₂ session_id
            (fun s => { s with current_round := new_round_number })
          (.ok { round_id := newr.round_id, session_id := session_id,
                 supplier_id := supplier_id, our_counter_price := counter_price,
                 their_response_price := resp.1, total_value := new_total_value,
                 round_number := new_round_number, status := resp.2,
                 discount_requested_percent := round2 discount_requested }, db')

/-- Return value of `accept_offer`. -/
structure AcceptResult where
  session_id : String
  status : String
  winning_supplier_id : String
  final_price : ℚ
  total_value : ℚ
  rounds_completed : Nat
  completed_at : Time
deriving DecidableEq

/-- `NegotiationService.accept_offer`.  Accepts the pair's latest round
and closes the session with status "completed"; performs no check of the
session's current status. -/
def accept_offer (db : DB) (now : Time) (session_id supplier_id : String) :
    Except Err AcceptResult × DB :=
  match findSession? db session_id with
  | none => (.error .notFound, db)
  | some session =>
    match latestRound? db session_id supplier_id with
    | none => (.error .invalidState, db)
    | some latest =>
      if latest.offered_price = 0 then (.error .invalidState, db)
      else
        let db₁ := updateSession db session_id
          (fun s => { s with status := "completed",
                             winning_supplier_id := some supplier_id,
                             final_price := some latest.offered_price,
                             total_value := some latest.total_value,
                             completed_at := some now })
        let db' := updateRound db₁ latest.round_id
          (fun r => { r with status := "accepted" })
        (.ok { session_id := session_id, status := "completed",
               winning_supplier_id := supplier_id,
               final_price := latest.offered_price,
               total_value := latest.total_value,
               rounds_completed := session.current_round,
               completed_at := now }, db')

/-- The fixed audience claim checked by `verify_mandate`. -/
def ap2Audience : String := "ap2-payment-gateway"

/-- Return value of `create_mandate`. -/
structure MandateResult where
  mandate_id : String
  signed_mandate : SignedToken
  amount : ℚ
  currency : String
  supplier_id : String
  expires_at : Time
  status : String
  session_id : Option String
  po_number : Option String
deriving DecidableEq

/-- The claim set `create_mandate` signs (the consent flag is `true` on
every path that reaches the signing step). -/
def mandatePayloadOf (now : Time) (supplier_id : String) (amount : ℚ)
    (currency order_details : String) (session_id po_number : Option String)
    (mandate_id : String) : MandatePayload :=
  { iss := "SupplyMind", sub := supplier_id, aud := ap2Audience,
    iat := now, exp := now + 86400, jti := mandate_id,
    mandate_type := "checkout", amount := amount, currency := currency,
    order_details := order_details, session_id := session_id,
    po_number := po_number, user_consent := true,
    consent_timestamp := now }

/-- The mandate row `create_mandate` persists. -/
def mandateRowOf (now : Time) (key : Nat) (supplier_id : String) (amount : ℚ)
    (currency order_details : String) (session_id po_number : Option String)
    (mandate_id : String) : PaymentMandate :=
  { mandate_id := mandate_id, session_id := session_id,
    po_number := po_number, supplier_id := supplier_id, amount := amount,
    currency := currency, mandate_type := "checkout",
    signed_mandate := signToken key (mandatePayloadOf now supplier_id amount
      currency order_details session_id po_number mandate_id),
    merchant_authorization := none,
    signature_algorithm := "RS256", public_key_id := "supplymind-key-001",
    status := "created", created_at := now, expires_at := now + 86400,
    executed_at := none, error_message := none }

/-- `AP2Service.create_mandate`.  `key` is the service's RSA key pair.
Rejects missing consent before touching the store, validates the
supplier, signs the claim set and persists the mandate with status
"created" and a 24-hour (86400 s) validity window. -/
def create_mandate (db : DB) (now : Time) (key : Nat) (supplier_id : String)
    (amount : ℚ) (currency : String) (order_details : String)
    (session_id po_number : Option String) (user_consent : Bool) :
    Except Err MandateResult × DB :=
  if !user_consent then (.error .permissionDenied, db)
  else if !supplierExists db supplier_id then (.error .notFound, db)
  else
    let mandate_id := mkMandateId db.fresh
    let m : PaymentMandate := mandateRowOf now key supplier_id amount currency
      order_details session_id po_number mandate_id
    (.ok { mandate_id := mandate_id, signed_mandate := m.signed_mandate,
           amount := amount, currency := currency, supplier_id := supplier_id,
           expires_at := m.expires_at, status := "created",
           session_id := session_id, po_number := po_number },
     { db with mandates := db.mandates ++ [m], fresh := db.fresh + 1 })

/-- Return value of `verify_mandate` (amount/currency/supplier echo fields
elided); `status` is present only on the success dict, `error` only on the
failure dicts. -/
structure VerifyResult where
  mandate_id : String
  valid : Bool
  decoded_payload : Option MandatePayload
  status : Option String
  error : Option String
deriving DecidableEq

/-- `AP2Service.verify_mandate`.  Lazy expiry check first; then JWT
verification against the service's public key and the fixed audience; the
mandate row is marked verified only when a merchant authorization is
presented alongside. -/
def verify_mandate (db : DB) (now : Time) (key : Nat) (mandate_id : String)
    (merchant_authorization : Option String) : Except Err VerifyResult × DB :=
  match findMandate? db mandate_id with
  | none => (.error .notFound, db)
  | some mandate =>
    if now > mandate.expires_at then
      (.ok { mandate_id := mandate_id, valid := false, decoded_payload := none,
             status := none, error := some "Mandate expired" },
       updateMandate db mandate_id (fun m => { m with status := "expired" }))
    else
      match jwtDecode mandate.signed_mandate key ap2Audience now with
      | .ok decoded =>
        match merchant_authorization with
        | some auth =>
          (.ok { mandate_id := mandate_id, valid := true,
                 decoded_payload := some decoded, status := some "verified",
                 error := none },
           updateMandate db mandate_id
             (fun m => { m with merchant_authorization := some auth,
                                status := "verified" }))
        | none =>
          (.ok { mandate_id := mandate_id, valid := true,
                 decoded_payload := some decoded, status := some mandate.status,
                 error := none }, db)
      | .error .expiredSignature =>
        (.ok { mandate_id := mandate_id, valid := false, decoded_payload := none,
               status := none, error := some "Signature expired" },
         updateMandate db mandate_id
           (fun m => { m with status := "expired",
                              error_message := some "JWT signature expired" }))
      | .error .invalidSignature =>
        (.ok { mandate_id := mandate_id, valid := false, decoded_payload := none,
               status := none, error := some "Invalid signature" },
         updateMandate db mandate_id
           (fun m => { m with status := "failed",
                              error_message := some "Invalid JWT signature" }))
      | .error .invalidAudience =>
        (.ok { mandate_id := mandate_id, valid := false, decoded_payload := none,
               status := none, error := some "Verification error: audience" },
         updateMandate db mandate_id
           (fun m => { m with status := "failed",
                              error_message := some "Invalid audience" }))

/-- Return value of `execute_payment`. -/
structure ExecResult where
  mandate_id : String
  status : String
  amount : ℚ
  currency : String
  supplier_id : String
  po_number : String
  executed_at : Time
deriving DecidableEq

/-- Shared tail of `execute_payment`: mark the mandate executed and record
the purchase order. -/
def execute_payment_finish (db : DB) (now : Time) (mandate_id po_number : String)
    (mandate : PaymentMandate) : Except Err ExecResult × DB :=
  (.ok { mandate_id := mandate_id, status := "executed",
         amount := mandate.amount, currency := mandate.currency,
         supplier_id := mandate.supplier_id, po_number := po_number,
         executed_at := now },
   updateMandate db mandate_id
     (fun m => { m with status := "executed", executed_at := some now,
                        po_number := some po_number }))

/-- `AP2Service.execute_payment`.  Requires status "verified"; a mandate
still in "created" is auto-verified once (without merchant authorization),
whose store mutations are committed even when the subsequent check fails;
any other status is rejected. -/
def execute_payment (db : DB) (now : Time) (key : Nat)
    (mandate_id po_number : String) : Except Err ExecResult × DB :=
  match findMandate? db mandate_id with
  | none => (.error .notFound, db)
  | some mandate =>
    if mandate.status = "verified" then
      execute_payment_finish db now mandate_id po_number mandate
    else if mandate.status = "created" then
      match verify_mandate db now key mandate_id none with
      | (.ok vr, db₁) =>
        if vr.valid then
          match findMandate? db₁ mandate_id with
          | some m₁ => execute_payment_finish db₁ now mandate_id po_number m₁
          | none => (.error .notFound, db₁)
        else (.error .verificationFailed, db₁)
      | (.error e, db₁) => (.error e, db₁)
    else (.error .invalidState, db)

/-! ### Concrete fixtures for witnesses and counterexamples -/

def itemX : Item := ⟨"X", 1⟩

def sessW : NegotiationSession :=
  { session_id := "neg-0", status := "open", items := [itemX],
    target_price := none, max_rounds := 3, current_round := 1,
    winning_supplier_id := none, final_price := none, total_value := none,
    created_at := 0, completed_at := none }

/-- A stored initial round for ("neg-0", "A") at the Scenario D price $4.50. -/
def roundW : NegotiationRound :=
  { round_id := "rnd-1", session_id := "neg-0", supplier_id := "A",
    round_number := 1, offer_type := "initial", offered_price := 9/2,
    total_value := 9/2, counter_price := none, justification := none,
    status := "received", response_received_at := some 1 }

def dbW : DB :=
  { suppliers := [⟨"A", "Alpha"⟩, ⟨"B", "Beta"⟩], products := [],
    sessions := [sessW], rounds := [roundW], mandates := [], fresh := 2 }

/-- Empty store with two suppliers, for operation traces. -/
def db0 : DB :=
  { suppliers := [⟨"A", "Alpha"⟩, ⟨"B", "Beta"⟩], products := [],
    sessions := [], rounds := [], mandates := [], fresh := 0 }

/-- The session as created by `create_session db0 0 [itemX] none none 3`. -/
def sess0 : NegotiationSession :=
  { session_id := "neg-0", status := "open", items := [itemX],
    target_price := none, max_rounds := 3, current_round := 0,
    winning_supplier_id := none, final_price := none, total_value := none,
    created_at := 0, completed_at := none }

def dbS : DB := { db0 with sessions := [sess0], fresh := 1 }

/-- Initial round from `request_quote dbS 1 "neg-0" "A" 1` (no product row,
so base price 5 and offered price `round2 (5 * 1) = 5`). -/
def rA1 : NegotiationRound :=
  { round_id := "rnd-1", session_id := "neg-0", supplier_id := "A",
    round_number := 1, offer_type := "initial", offered_price := 5,
    total_value := 5, counter_price := none, justification := none,
    status := "received", response_received_at := some 1 }

def dbQ1 : DB :=
  { db0 with sessions := [{ sess0 with current_round := 1 }],
             rounds := [rA1], fresh := 2 }

def rB2 : NegotiationRound :=
  { rA1 with round_id := "rnd-2", supplier_id := "B", round_number := 2,
             response_received_at := some 2 }

def dbQ2 : DB :=
  { db0 with sessions := [{ sess0 with current_round := 2 }],
             rounds := [rA1, rB2], fresh := 3 }

def rB3 : NegotiationRound :=
  { rA1 with round_id := "rnd-3", supplier_id := "B", round_number := 3,
             response_received_at := some 3 }

def dbQ3 : DB :=
  { db0 with sessions := [{ sess0 with current_round := 3 }],
             rounds := [rA1, rB2, rB3], fresh := 4 }

/-- Result of `request_quote dbS 1 "neg-0" "A" 1`. -/
def quoteRes1 : QuoteResult :=
  { round_id := "rnd-1", session_id := "neg-0", supplier_id := "A",
    offered_price := 5, total_value := 5, status := "received" }

/-- Round appended by `submit_counter dbQ3 4 "neg-0" "A" (24/5) "vol"`. -/
def rC4 : NegotiationRound :=
  { rA1 with round_id := "rnd-4", round_number := 2, offer_type := "counter",
             offered_price := 24/5, total_value := 24/5,
             response_received_at := some 4 }

/-- Result of `submit_counter dbQ3 4 "neg-0" "A" (24/5) "vol"` (requested
discount 4 % ≤ 5, so the simulated supplier accepts at 24/5). -/
def counterRes4 : CounterResult :=
  { round_id := "rnd-4", session_id := "neg-0", supplier_id := "A",
    our_counter_price := 24/5, their_response_price := 24/5,
    total_value := 24/5, round_number := 2, status := "accepted",
    discount_requested_percent := 4 }

/-- Store after `submit_counter dbQ3 4 "neg-0" "A" (24/5) "vol"`: the
session's global counter has moved back from 3 to 2. -/
def dbC8 : DB :=
  { db0 with
    sessions := [{ sess0 with current_round := 2 }],
    rounds := [{ rA1 with counter_price := some (24/5),
                          justification := some "vol",
                          status := "countered" }, rB2, rB3, rC4],
    fresh := 5 }

/-- Store after `accept_offer dbQ1 2 "neg-0" "A"`. -/
def dbA : DB :=
  { db0 with
    sessions := [{ sess0 with status := "completed", current_round := 1,
                              winning_supplier_id := some "A",
                              final_price := some 5, total_value := some 5,
                              completed_at := some 2 }],
    rounds := [{ rA1 with status := "accepted" }], fresh := 2 }

/-- The completed session row inside `dbA2`. -/
def sessA2 : NegotiationSession :=
  { sess0 with status := "completed", current_round := 2,
               winning_supplier_id := some "A", final_price := some 5,
               total_value := some 5, completed_at := some 2 }

/-- The counter-response round inside `dbA2`. -/
def rA2 : NegotiationRound :=
  { rA1 with round_id := "rnd-2", round_number := 2, offer_type := "counter",
             offered_price := 24/5, total_value := 24/5,
             response_received_at := some 3 }

/-- Store after `submit_counter dbA 3 "neg-0" "A" (24/5) "vol"` (discount
requested 4 % ≤ 5, so the simulated supplier accepts at 24/5). -/
def dbA2 : DB :=
  { db0 with
    sessions := [sessA2],
    rounds := [{ rA1 with counter_price := some (24/5),
                          justification := some "vol",
                          status := "countered" }, rA2],
    fresh := 3 }

/-- A valid mandate claim set signed below with key 7. -/
def payloadM : MandatePayload :=
  mandatePayloadOf 0 "A" 2200 "USD" "od" none none "ap2-0"

/-- A freshly created mandate (status "created", window [0, 86400]). -/
def mandateM : PaymentMandate := mandateRowOf 0 7 "A" 2200 "USD" "od" none none "ap2-0"

def dbM : DB := { db0 with mandates := [mandateM], fresh := 1 }

/-- The same mandate after a verification with merchant authorization. -/
def mandateV : PaymentMandate := { mandateM with status := "verified" }

def dbMv : DB := { db0 with mandates := [mandateV], fresh := 1 }

/-! ### Helper lemmas on the store -/

/-- Updating every matching element of a list commutes with `find?` when
the update preserves the predicate. -/
theorem find?_map_update {α : Type} (p : α → Bool) (g : α → α)
    (hg : ∀ x, p (g x) = p x) (l : List α) :
    (l.map (fun x => if p x then g x else x)).find? p = (l.find? p).map g := by
  induction l with
  | nil => simp
  | cons a t ih =>
    by_cases h : p a
    · simp [List.find?_cons, h, hg a]
    · simp only [Bool.not_eq_true] at h
      simp [List.find?_cons, h, ih]

/-- `find?` skips a prefix containing no match. -/
theorem find?_append_of_none {α : Type} (p : α → Bool) (l l' : List α)
    (h : l.find? p = none) : (l ++ l').find? p = l'.find? p := by
  induction l with
  | nil => simp
  | cons a t ih =>
    rw [List.find?_cons] at h
    cases hp : p a with
    | true => simp [hp] at h
    | false =>
      simp only [hp] at h
      simp [List.find?_cons, hp, ih h]

theorem findSession?_updateSession (db : DB) (sid : String)
    (g : NegotiationSession → NegotiationSession)
    (hg : ∀ s, (g s).session_id = s.session_id) :
    findSession? (updateSession db sid g) sid = (findSession? db sid).map g := by
  unfold findSession? updateSession
  exact find?_map_update _ g (fun s => by simp [hg s]) _

theorem findMandate?_updateMandate (db : DB) (mid : String)
    (g : PaymentMandate → PaymentMandate)
    (hg : ∀ m, (g m).mandate_id = m.mandate_id) :
    findMandate? (updateMandate db mid g) mid = (findMandate? db mid).map g := by
  unfold findMandate? updateMandate
  exact find?_map_update _ g (fun m => by simp [hg m]) _

/-- The maximum-tracking fold of `latestRound?` yields an element of the
folded list (or the initial accumulator). -/
theorem latest_fold_mem (l : List NegotiationRound)
    (acc : Option NegotiationRound) (b : NegotiationRound)
    (h : l.foldl
      (fun acc r =>
        match acc with
        | none => some r
        | some c => if r.round_number > c.round_number then some r else some c)
      acc = some b) : b ∈ l ∨ acc = some b := by
  induction l generalizing acc with
  | nil => right; simpa using h
  | cons a t ih =>
    simp only [List.foldl_cons] at h
    rcases ih _ h with hmem | hacc
    · left; exact List.mem_cons_of_mem _ hmem
    · cases acc with
      | none =>
        simp only [Option.some.injEq] at hacc
        subst hacc
        left; exact List.mem_cons_self a t
      | some c =>
        by_cases hlt : a.round_number > c.round_number
        · simp only [hlt, if_true, Option.some.injEq] at hacc
          subst hacc
          left; exact List.mem_cons_self a t
        · simp only [hlt, if_false] at hacc
          right; exact hacc

/-- A round returned by `latestRound?` is stored and belongs to the
queried (session, supplier) pair. -/
theorem latestRound?_mem (db : DB) (sid supid : String) (r : NegotiationRound)
    (h : latestRound? db sid supid = some r) :
    r ∈ db.rounds ∧ r.session_id = sid ∧ r.supplier_id = supid := by
  unfold latestRound? at h
  rcases latest_fold_mem _ _ _ h with hmem | hacc
  · have := List.mem_filter.mp hmem
    refine ⟨this.1, ?_, ?_⟩
    · have h1 := this.2
      simp only [Bool.and_eq_true, beq_iff_eq] at h1
      exact h1.1
    · have h1 := this.2
      simp only [Bool.and_eq_true, beq_iff_eq] at h1
      exact h1.2
  · exact absurd hacc (by simp)

/-- Updating rounds leaves session lookup untouched. -/
theorem findSession?_updateRound (db : DB) (rid : String)
    (g : NegotiationRound → NegotiationRound) (sid : String) :
    findSession? (updateRound db rid g) sid = findSession? db sid := rfl

/-- Replacing the rounds list and the id counter leaves session lookup
untouched. -/
theorem findSession?_rounds_fresh (db : DB) (rs : List NegotiationRound)
    (n : Nat) (sid : String) :
    findSession? { db with rounds := rs, fresh := n } sid = findSession? db sid := rfl

theorem mkSessionId_0 : mkSessionId 0 = "neg-0" := by decide
theorem mkRoundId_1 : mkRoundId 1 = "rnd-1" := by decide
theorem mkRoundId_2 : mkRoundId 2 = "rnd-2" := by decide
theorem mkRoundId_3 : mkRoundId 3 = "rnd-3" := by decide
theorem mkRoundId_4 : mkRoundId 4 = "rnd-4" := by decide

/-- A stored, unexpired mandate whose token carries the service key's
signature over its own payload with the expected audience and an
unexpired `exp` claim verifies successfully, under any merchant
authorization argument. -/
theorem verify_mandate_valid (db : DB) (now : Time) (key : Nat) (mid : String)
    (auth : Option String) (m : PaymentMandate)
    (hm : findMandate? db mid = some m)
    (hexp : ¬ m.expires_at < now)
    (hsig : m.signed_mandate.sig = (key, m.signed_mandate.payload))
    (haud : m.signed_mandate.payload.aud = ap2Audience)
    (hjexp : ¬ m.signed_mandate.payload.exp < now) :
    ∃ vr db₂, verify_mandate db now key mid auth = (.ok vr, db₂) ∧
      vr.valid = true ∧ vr.decoded_payload = some m.signed_mandate.payload := by
  have hdec : jwtDecode m.signed_mandate key ap2Audience now
      = .ok m.signed_mandate.payload := by
    unfold jwtDecode
    rw [if_neg (by simp [hsig]), if_neg hjexp, if_neg (by simp [haud])]
  unfold verify_mandate
  simp only [hm]
  rw [if_neg hexp]
  simp only [hdec]
  cases auth with
  | some a => exact ⟨_, _, rfl, rfl, rfl⟩
  | none => exact ⟨_, _, rfl, rfl, rfl⟩

/-- A successful `verify_mandate` call leaves some row under the queried
mandate id in the resulting store. -/
theorem verify_mandate_found (db : DB) (now : Time) (key : Nat) (mid : String)
    (auth : Option String) (vr : VerifyResult) (db₁ : DB) (m : PaymentMandate)
    (hm : findMandate? db mid = some m)
    (h : verify_mandate db now key mid auth = (.ok vr, db₁)) :
    ∃ m₁, findMandate? db₁ mid = some m₁ := by
  have hupd : ∀ g : PaymentMandate → PaymentMandate,
      (∀ x, (g x).mandate_id = x.mandate_id) →
      ∃ m₁, findMandate? (updateMandate db mid g) mid = some m₁ := fun g hg => by
    rw [findMandate?_updateMandate db mid g hg, hm]
    exact ⟨g m, rfl⟩
  unfold verify_mandate at h
  simp only [hm] at h
  by_cases hexp : m.expires_at < now
  · rw [if_pos hexp] at h
    injection h with h1 h2
    subst h2
    exact hupd _ (fun x => rfl)
  · rw [if_neg hexp] at h
    cases hdec : jwtDecode m.signed_mandate key ap2Audience now with
    | ok p =>
      cases auth with
      | some a =>
        simp only [hdec] at h
        injection h with h1 h2
        subst h2
        exact hupd _ (fun x => rfl)
      | none =>
        simp only [hdec] at h
        injection h with h1 h2
        subst h2
        exact ⟨m, hm⟩
    | error e =>
      cases e <;> simp only [hdec] at h <;>
        (injection h with h1 h2; subst h2; exact hupd _ (fun x => rfl))

/-! ### C1 -/

/-- Branch analysis of the simulated supplier decision logic of
`submit_counter`, by the requested discount `d`. -/
theorem supplierResponse_spec (their c d : ℚ)
    (hd : d = (their - c) / their * 100) :
    (d ≤ 5 → supplierResponse their c = (c, "accepted")) ∧
    (5 < d → d ≤ 10 → supplierResponse their c = (round2 ((their + c) / 2), "countered")) ∧
    (10 < d → d ≤ 15 → supplierResponse their c = (round2 (their * (95/100)), "countered")) ∧
    (15 < d → supplierResponse their c = (round2 (their * (97/100)), "countered")) := by
  subst hd
  unfold supplierResponse
  refine ⟨fun h1 => ?_, fun h1 h2 => ?_, fun h1 h2 => ?_, fun h1 => ?_⟩
  · rw [if_pos h1]
  · rw [if_neg (not_le.mpr h1), if_pos h2]
  · rw [if_neg (not_le.mpr (by linarith)), if_neg (not_le.mpr h1), if_pos h2]
  · rw [if_neg (not_le.mpr (by linarith)), if_neg (not_le.mpr (by linarith)),
      if_neg (not_le.mpr h1)]

/-- C1: for a SubmitCounter whose pair has a prior (latest) round with
offered price `P > 0` and counter `c`, with `d = (P - c)/P * 100`, the
decision table holds on the reported response: `d ≤ 5` gives price `c`
and status accepted, `5 < d ≤ 10` the rounded midpoint, `10 < d ≤ 15`
`round2 (P * 0.95)`, `d > 15` `round2 (P * 0.97)`, each non-accepting
branch reporting status countered; a new stored round has
`offer_type = "counter"` and `round_number = previous + 1`, and the prior
round is stored marked countered with the counter price and justification
recorded. -/
theorem submit_counter_decision (db : DB) (now : Time) (sid supid : String)
    (c d : ℚ) (just : String) (s : NegotiationSession) (r : NegotiationRound)
    (it : Item)
    (hs : findSession? db sid = some s)
    (hr : latestRound? db sid supid = some r)
    (hP : 0 < r.offered_price)
    (hit : s.items.head? = some it)
    (hd : d = (r.offered_price - c) / r.offered_price * 100) :
    ∃ res db', submit_counter db now sid supid c just = (.ok res, db') ∧
      (d ≤ 5 → res.their_response_price = c ∧ res.status = "accepted") ∧
      (5 < d → d ≤ 10 →
        res.their_response_price = round2 ((r.offered_price + c) / 2) ∧
        res.status = "countered") ∧
      (10 < d → d ≤ 15 →
        res.their_response_price = round2 (r.offered_price * (95/100)) ∧
        res.status = "countered") ∧
      (15 < d →
        res.their_response_price = round2 (r.offered_price * (97/100)) ∧
        res.status = "countered") ∧
      res.round_number = r.round_number + 1 ∧
      (∃ rn ∈ db'.rounds, rn.round_id = res.round_id ∧
        rn.offer_type = "counter" ∧ rn.round_number = r.round_number + 1 ∧
        rn.offered_price = res.their_response_price ∧ rn.status = "received") ∧
      (∃ pr ∈ db'.rounds, pr.round_id = r.round_id ∧ pr.status = "countered" ∧
        pr.counter_price = some c ∧ pr.justification = some just) := by
  obtain ⟨hmem, -, -⟩ := latestRound?_mem db sid supid r hr
  obtain ⟨h1, h2, h3, h4⟩ := supplierResponse_spec r.offered_price c d hd
  unfold submit_counter
  rw [hs, hr]
  simp only [hP.ne', if_false, hit]
  refine ⟨_, _, rfl, ?_, ?_, ?_, ?_, rfl, ?_, ?_⟩
  · intro h; rw [h1 h]; exact ⟨rfl, rfl⟩
  · intro ha hb; rw [h2 ha hb]; exact ⟨rfl, rfl⟩
  · intro ha hb; rw [h3 ha hb]; exact ⟨rfl, rfl⟩
  · intro h; rw [h4 h]; exact ⟨rfl, rfl⟩
  · exact ⟨_, List.mem_append_right _ (List.mem_singleton_self _),
      rfl, rfl, rfl, rfl, rfl⟩
  · refine ⟨{ r with counter_price := some c, justification := some just,
                     status := "countered" }, ?_, rfl, rfl, rfl, rfl⟩
    simp only [updateSession, updateRound]
    exact List.mem_append_left _ (List.mem_map.mpr ⟨r, hmem, by simp⟩)

/-- C1 witness: Scenario D on the stored fixture — prior offer $4.50,
counter $3.80, requested discount 140/9 ≈ 15.6 % > 15. -/
theorem submit_counter_decision_witness :
    (0 : ℚ) < roundW.offered_price ∧ (15 : ℚ) < 140/9 ∧
    (∃ res db', submit_counter dbW 2 "neg-0" "A" (19/5) "mkt" = (.ok res, db') ∧
      ((140/9 : ℚ) ≤ 5 → res.their_response_price = 19/5 ∧ res.status = "accepted") ∧
      ((5 : ℚ) < 140/9 → (140/9 : ℚ) ≤ 10 →
        res.their_response_price = round2 ((roundW.offered_price + 19/5) / 2) ∧
        res.status = "countered") ∧
      ((10 : ℚ) < 140/9 → (140/9 : ℚ) ≤ 15 →
        res.their_response_price = round2 (roundW.offered_price * (95/100)) ∧
        res.status = "countered") ∧
      ((15 : ℚ) < 140/9 →
        res.their_response_price = round2 (roundW.offered_price * (97/100)) ∧
        res.status = "countered") ∧
      res.round_number = roundW.round_number + 1 ∧
      (∃ rn ∈ db'.rounds, rn.round_id = res.round_id ∧
        rn.offer_type = "counter" ∧ rn.round_number = roundW.round_number + 1 ∧
        rn.offered_price = res.their_response_price ∧ rn.status = "received") ∧
      (∃ pr ∈ db'.rounds, pr.round_id = roundW.round_id ∧ pr.status = "countered" ∧
        pr.counter_price = some (19/5) ∧ pr.justification = some "mkt")) :=
  ⟨by norm_num [roundW], by norm_num,
   submit_counter_decision dbW 2 "neg-0" "A" (19/5) (140/9) "mkt" sessW roundW
     itemX rfl rfl (by norm_num [roundW]) rfl (by norm_num [roundW])⟩

/-! ### C10 -/

/-- C10: RequestQuote on an existing session and supplier whose first
item's SKU has no product row, or whose product's unit cost is missing or
zero, does not fail: it uses the fallback base price 5.0 and offers
`round2 (5 * markup)`. -/
theorem request_quote_fallback_price (db : DB) (now : Time)
    (sid supid : String) (markup : ℚ) (s : NegotiationSession) (it : Item)
    (hs : findSession? db sid = some s)
    (hsup : supplierExists db supid = true)
    (hit : s.items.head? = some it)
    (hprod : findProduct? db it.sku = none ∨
      findProduct? db it.sku = some { unit_cost := none } ∨
      findProduct? db it.sku = some { unit_cost := some 0 }) :
    ∃ res db', request_quote db now sid supid markup = (.ok res, db') ∧
      res.offered_price = round2 (5 * markup) ∧ res.status = "received" := by
  unfold request_quote
  rw [hs, hsup]
  rcases hprod with h | h | h <;> simp [hit, h]

/-- C10 witness: the fixture store has no product row for SKU "X", and
the quote at markup 1.1 is `round2 (5 * 1.1) = 5.5`. -/
theorem request_quote_fallback_price_witness :
    findProduct? dbW "X" = none ∧
    (∃ res db', request_quote dbW 1 "neg-0" "A" (11/10) = (.ok res, db') ∧
      res.offered_price = round2 (5 * (11/10)) ∧ res.status = "received") :=
  ⟨rfl, request_quote_fallback_price dbW 1 "neg-0" "A" (11/10) sessW itemX
    rfl rfl rfl (Or.inl rfl)⟩

/-! ### C2 -/

/-- C2: CreateMandate without consent fails PermissionDenied with the
store untouched; with consent and an existing supplier it succeeds and
the persisted mandate has status "created" and
`expires_at = created_at + 24 h`. -/
theorem create_mandate_consent_and_expiry (db : DB) (now : Time) (key : Nat)
    (supid : String) (amount : ℚ) (currency od : String)
    (sid po : Option String) :
    (create_mandate db now key supid amount currency od sid po false
      = (.error .permissionDenied, db)) ∧
    (supplierExists db supid = true →
      ∃ res db', create_mandate db now key supid amount currency od sid po true
        = (.ok res, db') ∧ res.status = "created" ∧
        ∃ m ∈ db'.mandates, m.mandate_id = res.mandate_id ∧
          m.status = "created" ∧ m.expires_at = m.created_at + 24 * 3600) := by
  refine ⟨rfl, fun hsup => ?_⟩
  unfold create_mandate
  rw [hsup]
  refine ⟨_, _, rfl, rfl, ?_⟩
  exact ⟨_, List.mem_append_right _ (List.mem_singleton_self _), rfl, rfl,
    by norm_num [mandateRowOf]⟩

/-- C2 witness: Scenario E on the two-supplier store. -/
theorem create_mandate_consent_and_expiry_witness :
    supplierExists db0 "A" = true ∧
    create_mandate db0 0 7 "A" 2200 "USD" "od" none none false
      = (.error .permissionDenied, db0) ∧
    (∃ res db', create_mandate db0 0 7 "A" 2200 "USD" "od" none none true
      = (.ok res, db') ∧ res.status = "created" ∧
      ∃ m ∈ db'.mandates, m.mandate_id = res.mandate_id ∧
        m.status = "created" ∧ m.expires_at = m.created_at + 24 * 3600) :=
  ⟨rfl, (create_mandate_consent_and_expiry db0 0 7 "A" 2200 "USD" "od" none none).1,
   (create_mandate_consent_and_expiry db0 0 7 "A" 2200 "USD" "od" none none).2 rfl⟩

/-! ### C6 -/

/-- C6: verifying any stored mandate strictly after its `expires_at`
returns valid=false with the expiry error and marks the row expired, for
every stored token and every merchant authorization argument — the
signature is never consulted. -/
theorem verify_mandate_expired (db : DB) (now : Time) (key : Nat)
    (mid : String) (auth : Option String) (m : PaymentMandate)
    (hm : findMandate? db mid = some m)
    (hexp : m.expires_at < now) :
    ∃ res db', verify_mandate db now key mid auth = (.ok res, db') ∧
      res.valid = false ∧ res.error = some "Mandate expired" ∧
      (findMandate? db' mid).map (·.status) = some "expired" := by
  unfold verify_mandate
  simp only [hm]
  rw [if_pos hexp]
  refine ⟨_, _, rfl, rfl, rfl, ?_⟩
  rw [findMandate?_updateMandate db mid (fun m => { m with status := "expired" })
    (fun x => rfl), hm]
  rfl

/-- C6 witness: the fixture mandate expires at 86400 s; verifying one
nanosecond later reports it expired. -/
theorem verify_mandate_expired_witness :
    mandateM.expires_at < 86400 + 1/1000000000 ∧
    (∃ res db', verify_mandate dbM (86400 + 1/1000000000) 7 "ap2-0" none
      = (.ok res, db') ∧ res.valid = false ∧
      res.error = some "Mandate expired" ∧
      (findMandate? db' "ap2-0").map (·.status) = some "expired") :=
  ⟨by norm_num [mandateM, mandateRowOf],
   verify_mandate_expired dbM (86400 + 1/1000000000) 7 "ap2-0" none mandateM rfl
     (by norm_num [mandateM, mandateRowOf])⟩

/-! ### C3 -/

/-- C3: ExecutePayment fails NotFound on an absent mandate; succeeds when
the mandate is "verified", or when it is "created" and the single
automatic verification returns valid (failing otherwise); any other
status fails InvalidState; on success the stored mandate becomes
"executed" with `executed_at` and the supplied purchase order recorded. -/
theorem execute_payment_spec (db : DB) (now : Time) (key : Nat)
    (mid po : String) :
    (findMandate? db mid = none →
      execute_payment db now key mid po = (.error .notFound, db)) ∧
    (∀ m, findMandate? db mid = some m →
      (m.status = "verified" →
        ∃ res db', execute_payment db now key mid po = (.ok res, db') ∧
          res.status = "executed" ∧
          ∃ m', findMandate? db' mid = some m' ∧ m'.status = "executed" ∧
            m'.executed_at = some now ∧ m'.po_number = some po) ∧
      (m.status = "created" →
        ∀ vr db₁, verify_mandate db now key mid none = (.ok vr, db₁) →
          (vr.valid = true →
            ∃ res db', execute_payment db now key mid po = (.ok res, db') ∧
              res.status = "executed" ∧
              ∃ m', findMandate? db' mid = some m' ∧ m'.status = "executed" ∧
                m'.executed_at = some now ∧ m'.po_number = some po) ∧
          (vr.valid = false →
            execute_payment db now key mid po = (.error .verificationFailed, db₁))) ∧
      (m.status ≠ "verified" → m.status ≠ "created" →
        execute_payment db now key mid po = (.error .invalidState, db))) := by
  refine ⟨fun hnone => ?_,
    fun m hm => ⟨fun hver => ?_,
      fun hcr vr db₁ hv => ⟨fun hvalid => ?_, fun hinvalid => ?_⟩,
      fun hnv hnc => ?_⟩⟩
  · unfold execute_payment
    simp only [hnone]
  · unfold execute_payment
    simp only [hm]
    rw [if_pos hver]
    unfold execute_payment_finish
    refine ⟨_, _, rfl, rfl, ?_⟩
    rw [findMandate?_updateMandate db mid
      (fun m => { m with status := "executed", executed_at := some now,
                         po_number := some po }) (fun x => rfl), hm]
    exact ⟨_, rfl, rfl, rfl, rfl⟩
  · obtain ⟨m₁, hm₁⟩ := verify_mandate_found db now key mid none vr db₁ m hm hv
    unfold execute_payment
    simp only [hm]
    rw [if_neg (by simp [hcr]), if_pos hcr]
    simp only [hv]
    rw [if_pos hvalid]
    simp only [hm₁]
    unfold execute_payment_finish
    refine ⟨_, _, rfl, rfl, ?_⟩
    rw [findMandate?_updateMandate db₁ mid
      (fun m => { m with status := "executed", executed_at := some now,
                         po_number := some po }) (fun x => rfl), hm₁]
    exact ⟨_, rfl, rfl, rfl, rfl⟩
  · unfold execute_payment
    simp only [hm]
    rw [if_neg (by simp [hcr]), if_pos hcr]
    simp only [hv]
    rw [if_neg (by simp [hinvalid])]
  · unfold execute_payment
    simp only [hm]
    rw [if_neg hnv, if_neg hnc]

/-- C3 witness: executing the fixture's verified mandate records the
purchase order and marks it executed. -/
theorem execute_payment_spec_witness :
    findMandate? dbMv "ap2-0" = some mandateV ∧ mandateV.status = "verified" ∧
    (∃ res db', execute_payment dbMv 100 7 "ap2-0" "PO-1" = (.ok res, db') ∧
      res.status = "executed" ∧
      ∃ m', findMandate? db' "ap2-0" = some m' ∧ m'.status = "executed" ∧
        m'.executed_at = some 100 ∧ m'.po_number = some "PO-1") :=
  ⟨rfl, rfl, ((execute_payment_spec dbMv 100 7 "ap2-0" "PO-1").2 mandateV rfl).1 rfl⟩

/-! ### C7 -/

/-- C7: a mandate created with (amount, currency, supplier) verifies with
the matching key at any time up to its expiry, and the decoded claim set
returns exactly those creation inputs (amount, currency, subject). -/
theorem mandate_roundtrip (db : DB) (now t : Time) (key : Nat)
    (supid : String) (amount : ℚ) (currency od : String)
    (sid po : Option String) (auth : Option String)
    (hsup : supplierExists db supid = true)
    (hfresh : db.mandates.find? (fun m => m.mandate_id == mkMandateId db.fresh)
      = none)
    (ht : t ≤ now + 86400) :
    ∃ res db₁, create_mandate db now key supid amount currency od sid po true
        = (.ok res, db₁) ∧ res.expires_at = now + 86400 ∧
      ∃ vr db₂, verify_mandate db₁ t key res.mandate_id auth = (.ok vr, db₂) ∧
        vr.valid = true ∧
        ∃ p, vr.decoded_payload = some p ∧ p.amount = amount ∧
          p.currency = currency ∧ p.sub = supid := by
  set mrow := mandateRowOf now key supid amount currency od sid po
    (mkMandateId db.fresh) with hmrow
  have hc : create_mandate db now key supid amount currency od sid po true
      = (.ok { mandate_id := mkMandateId db.fresh,
               signed_mandate := mrow.signed_mandate,
               amount := amount, currency := currency, supplier_id := supid,
               expires_at := now + 86400, status := "created",
               session_id := sid, po_number := po },
         { db with mandates := db.mandates ++ [mrow], fresh := db.fresh + 1 }) := by
    rw [hmrow]
    unfold create_mandate
    rw [hsup]
    rfl
  have hfind : findMandate?
      { db with mandates := db.mandates ++ [mrow], fresh := db.fresh + 1 }
      (mkMandateId db.fresh) = some mrow := by
    show (db.mandates ++ [mrow]).find?
      (fun m => m.mandate_id == mkMandateId db.fresh) = _
    rw [find?_append_of_none _ _ _ hfresh]
    simp [hmrow, mandateRowOf]
  obtain ⟨vr, db₂, heq, hval, hdec⟩ :=
    verify_mandate_valid _ t key _ auth _ hfind
      (not_lt.mpr ht) rfl rfl (not_lt.mpr ht)
  exact ⟨_, _, hc, rfl, vr, db₂, heq, hval, _, hdec, rfl, rfl, rfl⟩

/-- C7 witness: create at time 0 for supplier "A", amount 2200 USD, and
verify at time 100 with the same key. -/
theorem mandate_roundtrip_witness :
    supplierExists db0 "A" = true ∧ ((100 : ℚ) ≤ 0 + 86400) ∧
    (∃ res db₁, create_mandate db0 0 7 "A" 2200 "USD" "od" none none true
        = (.ok res, db₁) ∧ res.expires_at = 0 + 86400 ∧
      ∃ vr db₂, verify_mandate db₁ 100 7 res.mandate_id none = (.ok vr, db₂) ∧
        vr.valid = true ∧
        ∃ p, vr.decoded_payload = some p ∧ p.amount = 2200 ∧
          p.currency = "USD" ∧ p.sub = "A") :=
  ⟨rfl, by norm_num,
   mandate_roundtrip db0 0 100 7 "A" 2200 "USD" "od" none none none rfl rfl
     (by norm_num)⟩

/-! ### C4 -/

/-- C4 counterexample: verifying a fresh, valid mandate WITHOUT a merchant
authorization returns valid=true but leaves the stored status "created" —
the claim's unconditional "sets the mandate's status to verified" fails. -/
theorem verify_mandate_sets_verified_counterexample :
    (verify_mandate dbM 100 7 "ap2-0" none).1.toOption.map (·.valid)
      = some true ∧
    (findMandate? (verify_mandate dbM 100 7 "ap2-0" none).2 "ap2-0").map
      (·.status) = some "created" := by
  constructor <;>
    (simp [verify_mandate, findMandate?, jwtDecode, dbM, mandateM, mandateRowOf,
       mandatePayloadOf, signToken, db0, ap2Audience, Except.toOption]
     norm_num)

/-- C4 (amended): on an existing unexpired mandate whose token verifies
against the stored key with the expected audience, VerifyMandate returns
valid=true with the decoded payload, but sets status=verified (recording
the authorization) only when a merchant authorization is supplied;
without one the store is unchanged.  On signature failure it sets
status=failed with an error message and returns valid=false. -/
theorem verify_mandate_success_spec (db : DB) (now : Time) (key : Nat)
    (mid : String) (m : PaymentMandate) (auth : Option String)
    (hm : findMandate? db mid = some m)
    (hexp : ¬ m.expires_at < now) :
    (m.signed_mandate.sig = (key, m.signed_mandate.payload) →
     m.signed_mandate.payload.aud = ap2Audience →
     ¬ m.signed_mandate.payload.exp < now →
      (∀ a, ∃ vr db₂, verify_mandate db now key mid (some a) = (.ok vr, db₂) ∧
        vr.valid = true ∧ vr.decoded_payload = some m.signed_mandate.payload ∧
        vr.status = some "verified" ∧
        findMandate? db₂ mid
          = some { m with merchant_authorization := some a,
                          status := "verified" }) ∧
      (∃ vr, verify_mandate db now key mid none = (.ok vr, db) ∧
        vr.valid = true ∧ vr.decoded_payload = some m.signed_mandate.payload ∧
        vr.status = some m.status)) ∧
    (m.signed_mandate.sig ≠ (key, m.signed_mandate.payload) →
      ∃ vr db₂, verify_mandate db now key mid auth = (.ok vr, db₂) ∧
        vr.valid = false ∧ vr.error = some "Invalid signature" ∧
        findMandate? db₂ mid
          = some { m with status := "failed",
                          error_message := some "Invalid JWT signature" }) := by
  constructor
  · intro hsig haud hjexp
    have hdec : jwtDecode m.signed_mandate key ap2Audience now
        = .ok m.signed_mandate.payload := by
      unfold jwtDecode
      rw [if_neg (by simp [hsig]), if_neg hjexp, if_neg (by simp [haud])]
    constructor
    · intro a
      unfold verify_mandate
      simp only [hm]
      rw [if_neg hexp]
      simp only [hdec]
      refine ⟨_, _, rfl, rfl, rfl, rfl, ?_⟩
      rw [findMandate?_updateMandate db mid
        (fun x => { x with merchant_authorization := some a,
                           status := "verified" }) (fun x => rfl), hm]
      rfl
    · unfold verify_mandate
      simp only [hm]
      rw [if_neg hexp]
      simp only [hdec]
      exact ⟨_, rfl, rfl, rfl, rfl⟩
  · intro hsig
    have hdec : jwtDecode m.signed_mandate key ap2Audience now
        = .error .invalidSignature := by
      unfold jwtDecode
      rw [if_pos hsig]
    unfold verify_mandate
    simp only [hm]
    rw [if_neg hexp]
    simp only [hdec]
    refine ⟨_, _, rfl, rfl, rfl, ?_⟩
    rw [findMandate?_updateMandate db mid
      (fun x => { x with status := "failed",
                         error_message := some "Invalid JWT signature" })
      (fun x => rfl), hm]
    rfl

/-- C4 witness: the fixture mandate, verified at time 100 without merchant
authorization — valid with the decoded payload, store untouched. -/
theorem verify_mandate_success_spec_witness :
    ∃ vr, verify_mandate dbM 100 7 "ap2-0" none = (.ok vr, dbM) ∧
      vr.valid = true ∧
      vr.decoded_payload = some mandateM.signed_mandate.payload ∧
      vr.status = some mandateM.status :=
  ((verify_mandate_success_spec dbM 100 7 "ap2-0" mandateM none rfl
      (by norm_num [mandateM, mandateRowOf])).1 rfl rfl
      (by norm_num [mandateM, mandateRowOf, mandatePayloadOf, signToken])).2

/-! ### C5 -/

/-- C5 counterexample: after a successful AcceptOffer (status "completed",
final price 5) and a further counter round at 24/5, a second AcceptOffer
on the same session SUCCEEDS — no InvalidState — and overwrites
final_price from 5 to 24/5. -/
theorem accept_offer_terminal_counterexample :
    (accept_offer dbQ1 2 "neg-0" "A").1.isOk = true ∧
    (accept_offer dbQ1 2 "neg-0" "A").2 = dbA ∧
    (findSession? dbA "neg-0").map (·.status) = some "completed" ∧
    (findSession? dbA "neg-0").map (·.final_price) = some (some 5) ∧
    (submit_counter dbA 3 "neg-0" "A" (24/5) "vol").2 = dbA2 ∧
    (accept_offer dbA2 4 "neg-0" "A").1.isOk = true ∧
    (findSession? (accept_offer dbA2 4 "neg-0" "A").2 "neg-0").map
      (·.final_price) = some (some (24/5)) := by
  refine ⟨?_, ?_, rfl, rfl, ?_, ?_, ?_⟩ <;>
    (simp [accept_offer, submit_counter, findSession?, latestRound?,
       supplierResponse, updateSession, updateRound, mkRoundId_2, Except.isOk,
       Except.toBool, dbQ1, dbA, dbA2, sessA2, rA2, sess0, db0, rA1, itemX]
     try norm_num [round2, roundHalfEven])

/-- C5 (amended): AcceptOffer performs no terminal-status check: on a
session already closed (status "completed") it succeeds again whenever
the pair's latest round has a nonzero offered price, re-marking that
round accepted and overwriting winning_supplier_id and final_price with
that round's values. -/
theorem accept_offer_no_terminal_check (db : DB) (now : Time)
    (sid supid : String) (s : NegotiationSession) (r : NegotiationRound)
    (hs : findSession? db sid = some s)
    (_hstatus : s.status = "completed")
    (hr : latestRound? db sid supid = some r)
    (hP : ¬ r.offered_price = 0) :
    ∃ res db', accept_offer db now sid supid = (.ok res, db') ∧
      res.status = "completed" ∧ res.final_price = r.offered_price ∧
      (findSession? db' sid).map (·.final_price)
        = some (some r.offered_price) := by
  unfold accept_offer
  simp only [hs, hr]
  rw [if_neg hP]
  refine ⟨_, _, rfl, rfl, rfl, ?_⟩
  rw [findSession?_updateRound, findSession?_updateSession db sid
    (fun s => { s with status := "completed",
                       winning_supplier_id := some supid,
                       final_price := some r.offered_price,
                       total_value := some r.total_value,
                       completed_at := some now }) (fun x => rfl), hs]
  rfl

/-- C5 amended witness: the already-completed fixture session accepts
again at the newer round's price 24/5. -/
theorem accept_offer_no_terminal_check_witness :
    (findSession? dbA2 "neg-0").map (·.status) = some "completed" ∧
    ¬ rA2.offered_price = 0 ∧
    (∃ res db', accept_offer dbA2 4 "neg-0" "A" = (.ok res, db') ∧
      res.status = "completed" ∧ res.final_price = rA2.offered_price ∧
      (findSession? db' "neg-0").map (·.final_price)
        = some (some rA2.offered_price)) :=
  ⟨rfl, by norm_num [rA2, rA1],
   accept_offer_no_terminal_check dbA2 4 "neg-0" "A" sessA2 rA2 rfl rfl rfl
     (by norm_num [rA2, rA1])⟩

/-! ### C8 -/

/-- C8 counterexample: quote A, quote B, quote B brings current_round to 3
(and a round numbered 3 exists); a counter to A then succeeds and SETS
current_round back to 2 — the counter both decreases and falls below the
highest issued round_number. -/
theorem current_round_monotonicity_counterexample :
    (create_session db0 0 [itemX] none none 3).2 = dbS ∧
    (request_quote dbS 1 "neg-0" "A" 1).2 = dbQ1 ∧
    (request_quote dbQ1 2 "neg-0" "B" 1).2 = dbQ2 ∧
    (request_quote dbQ2 3 "neg-0" "B" 1).2 = dbQ3 ∧
    (findSession? dbQ3 "neg-0").map (·.current_round) = some 3 ∧
    dbQ3.rounds.any (fun r => r.round_number == 3) = true ∧
    (submit_counter dbQ3 4 "neg-0" "A" (24/5) "vol").1.isOk = true ∧
    (findSession? (submit_counter dbQ3 4 "neg-0" "A" (24/5) "vol").2
      "neg-0").map (·.current_round) = some 2 := by
  refine ⟨?_, ?_, ?_, ?_, rfl, rfl, ?_, ?_⟩ <;>
    (simp [create_session, truthy, create_session_persist, request_quote,
       submit_counter, findSession?, supplierExists, findProduct?, latestRound?,
       supplierResponse, updateSession, updateRound, mkSessionId_0, mkRoundId_1,
       mkRoundId_2, mkRoundId_3, mkRoundId_4, Except.isOk, Except.toBool,
       db0, dbS, dbQ1, dbQ2, dbQ3, sess0, rA1, rB2, rB3, itemX]
     try norm_num [round2, roundHalfEven])

/-- C8 (amended): the session's current_round always equals the
round_number of the round the operation just created: RequestQuote sets
it to the prior value + 1, while SubmitCounter sets it to the pair's
previous latest round_number + 1 — which, with several suppliers, can be
smaller than the current value, so the counter is not monotone. -/
theorem current_round_tracks_created_round :
    (∀ db now sid supid markup s res db', findSession? db sid = some s →
      request_quote db now sid supid markup = (.ok res, db') →
      (findSession? db' sid).map (·.current_round)
        = some (s.current_round + 1)) ∧
    (∀ db now sid supid c just s r res db', findSession? db sid = some s →
      latestRound? db sid supid = some r →
      submit_counter db now sid supid c just = (.ok res, db') →
      (findSession? db' sid).map (·.current_round)
        = some (r.round_number + 1)) := by
  constructor
  · intro db now sid supid markup s res db' hs h
    unfold request_quote at h
    simp only [hs] at h
    by_cases hsup : supplierExists db supid
    · rw [hsup] at h
      simp only [Bool.not_true, Bool.false_eq_true, if_false] at h
      cases hit : s.items.head? with
      | none => simp only [hit] at h; simp at h
      | some it =>
        simp only [hit] at h
        injection h with h1 h2
        subst h2
        rw [findSession?_updateSession _ sid
          (fun x => { x with current_round := s.current_round + 1 })
          (fun x => rfl), findSession?_rounds_fresh, hs]
        rfl
    · simp only [Bool.not_eq_true] at hsup
      rw [hsup] at h
      simp at h
  · intro db now sid supid c just s r res db' hs hr h
    unfold submit_counter at h
    simp only [hs, hr] at h
    by_cases hz : r.offered_price = 0
    · rw [if_pos hz] at h
      simp at h
    · rw [if_neg hz] at h
      cases hit : s.items.head? with
      | none => simp only [hit] at h; simp at h
      | some it =>
        simp only [hit] at h
        injection h with h1 h2
        subst h2
        rw [findSession?_updateSession _ sid
          (fun x => { x with current_round := r.round_number + 1 })
          (fun x => rfl), findSession?_rounds_fresh, findSession?_updateRound, hs]
        rfl

/-- C8 amended witness: the quote step moves the counter 0 → 1; the
counter step on the three-round store moves it 3 → 2 = rA1's number + 1. -/
theorem current_round_tracks_created_round_witness :
    (findSession? dbQ1 "neg-0").map (·.current_round)
      = some (sess0.current_round + 1) ∧
    (findSession? dbC8 "neg-0").map (·.current_round)
      = some (rA1.round_number + 1) :=
  ⟨current_round_tracks_created_round.1 dbS 1 "neg-0" "A" 1 sess0 quoteRes1 dbQ1
     rfl (by
       simp [request_quote, findSession?, supplierExists, findProduct?,
         updateSession, mkRoundId_1, dbS, dbQ1, sess0, db0, rA1, itemX,
         quoteRes1]
       norm_num [round2, roundHalfEven]),
   current_round_tracks_created_round.2 dbQ3 4 "neg-0" "A" (24/5) "vol"
     { sess0 with current_round := 3 } rA1 counterRes4 dbC8 rfl rfl (by
       simp [submit_counter, findSession?, latestRound?, supplierResponse,
         updateSession, updateRound, mkRoundId_4, dbQ3, dbC8, sess0, db0, rA1,
         rB2, rB3, rC4, itemX, counterRes4]
       norm_num [round2, roundHalfEven])⟩

/-! ### C9 -/

/-- C9 counterexample: CreateSession with an EMPTY items list succeeds —
no InvalidArgument — and persists an open session; an item with
quantity 0 is accepted as well. -/
theorem create_session_validation_counterexample :
    (create_session db0 0 [] none none 3).1.isOk = true ∧
    (create_session db0 0 [] none none 3).2.sessions.map (·.status)
      = ["open"] ∧
    (create_session db0 0 [⟨"X", 0⟩] none none 3).1.isOk = true := by
  refine ⟨rfl, rfl, rfl⟩

/-- C9 (amended): CreateSession validates nothing: with a falsy
target_discount_percent it succeeds on every items list (empty lists and
arbitrary quantities included); with a truthy discount and falsy target
price it succeeds whenever items is non-empty (an empty list then crashes
with an IndexError, not InvalidArgument).  Every successful call persists
a session with status "open" and current_round 0. -/
theorem create_session_no_validation (db : DB) (now : Time)
    (items : List Item) (tp tdp : Option ℚ) (mr : Nat) :
    ((truthy tdp && !truthy tp) = false →
      ∃ res db', create_session db now items tp tdp mr = (.ok res, db') ∧
        res.status = "open" ∧
        ∃ s ∈ db'.sessions, s.session_id = res.session_id ∧
          s.status = "open" ∧ s.current_round = 0 ∧ s.items = items) ∧
    ((truthy tdp && !truthy tp) = true → ∀ it, items.head? = some it →
      ∃ res db', create_session db now items tp tdp mr = (.ok res, db') ∧
        res.status = "open" ∧
        ∃ s ∈ db'.sessions, s.session_id = res.session_id ∧
          s.status = "open" ∧ s.current_round = 0 ∧ s.items = items) ∧
    ((truthy tdp && !truthy tp) = true → items = [] →
      create_session db now items tp tdp mr = (.error .indexError, db)) := by
  refine ⟨fun h => ?_, fun h it hit => ?_, fun h hnil => ?_⟩
  · unfold create_session
    rw [h]
    unfold create_session_persist
    exact ⟨_, _, rfl, rfl, _,
      List.mem_append_right _ (List.mem_singleton_self _), rfl, rfl, rfl, rfl⟩
  · unfold create_session
    rw [h]
    simp only [hit]
    unfold create_session_persist
    exact ⟨_, _, rfl, rfl, _,
      List.mem_append_right _ (List.mem_singleton_self _), rfl, rfl, rfl, rfl⟩
  · unfold create_session
    rw [h, hnil]
    rfl

/-- C9 witness: the empty items list with no discount target succeeds and
persists an open session with current_round 0. -/
theorem create_session_no_validation_witness :
    (truthy none && !truthy none) = false ∧
    (∃ res db', create_session db0 0 [] none none 3 = (.ok res, db') ∧
      res.status = "open" ∧
      ∃ s ∈ db'.sessions, s.session_id = res.session_id ∧
        s.status = "open" ∧ s.current_round = 0 ∧ s.items = ([] : List Item)) :=
  ⟨rfl, (create_session_no_validation db0 0 [] none none 3).1 rfl⟩

end SupplyMind
